import Mathlib

/-!
Shallow embedding of the DeepSearchAgent-Demo configuration resolver
(`src/utils/config.py`) and LLM client (`src/llms/llm.py`).

Python values that flow through the configuration pipeline are modelled
by the dynamic type `PyValue` (the source is untyped Python: a dataclass
field annotated `int` can in fact hold any object).  Files are modelled
by an explicit `FileSystem` record; a `.py` configuration module is a
partial namespace `String → Option PyValue` (what `getattr` sees), a
flat file is its list of lines.
-/

namespace DeepSearch

/-- A Python runtime value, restricted to the shapes configuration data
takes: `None`, strings, integers and booleans. -/
inductive PyValue where
  | none : PyValue
  | str : String → PyValue
  | int : Int → PyValue
  | bool : Bool → PyValue
deriving DecidableEq

/-- Python truthiness: `None`, `""`, `0` and `False` are falsy. -/
def PyValue.truthy : PyValue → Bool
  | .none => false
  | .str s => s ≠ ""
  | .int n => n ≠ 0
  | .bool b => b

/-- Python `str()` on a `PyValue` (used for f-string interpolation). -/
def PyValue.pyStr : PyValue → String
  | .none => "None"
  | .str s => s
  | .int n => toString n
  | .bool b => if b then "True" else "False"

/-- The `Config` dataclass of `src/utils/config.py`.  Field defaults are
those of the dataclass.  Fields are `PyValue` because Python does not
enforce the annotations (the `.py` branch of `from_file` stores raw
module attributes unparsed). -/
structure Config where
  base_url : PyValue := .none
  api_key : PyValue := .none
  tavily_api_key : PyValue := .none
  model : PyValue := .str ""
  max_search_results : PyValue := .int 3
  search_timeout : PyValue := .int 240
  max_content_length : PyValue := .int 20000
  max_reflections : PyValue := .int 2
  max_paragraphs : PyValue := .int 5
  output_dir : PyValue := .str "reports"
  save_intermediate_states : PyValue := .bool true
deriving DecidableEq

/-- The `Config.validate` method with the error lines it prints: returns the boolean
result of the Python method together with the list of printed messages
(the method prints the first missing credential and returns `False`). -/
def Config.validateChecks (c : Config) : Bool × List String :=
  if !c.api_key.truthy then (false, ["错误: API Key未设置"])
  else if !c.tavily_api_key.truthy then (false, ["错误: Tavily API Key未设置"])
  else (true, [])

/-- The boolean result of `Config.validate` alone. -/
def Config.validate (c : Config) : Bool :=
  (c.validateChecks).1

/-- Python `getattr(module, name, default)` over a module namespace. -/
def getattrD (ns : String → Option PyValue) (name : String) (d : PyValue) : PyValue :=
  (ns name).getD d

/-- The `.py` branch of `Config.from_file`: read profile-specific keys
from the dynamically imported module namespace, then the common keys.
When `method` is neither `"basic"` nor `"advanced"` the local variables
`base_url`/`api_key`/`model` are never bound and the constructor call
raises `NameError`; that case is `Option.none` here. -/
def Config.from_py (ns : String → Option PyValue) (method : String) : Option Config :=
  let triple : Option (PyValue × PyValue × PyValue) :=
    if method = "basic" then
      some (getattrD ns "DEEPSEEK_BASE_URL" .none,
            getattrD ns "DEEPSEEK_API_KEY" .none,
            getattrD ns "DEEPSEEK_MODEL" (.str "deepseek-chat"))
    else if method = "advanced" then
      some (getattrD ns "OPENAI_BASE_URL" .none,
            getattrD ns "OPENAI_API_KEY" .none,
            getattrD ns "OPENAI_MODEL" (.str "gpt-4o-mini"))
    else Option.none
  triple.map fun t =>
    { base_url := if t.1.truthy then t.1 else .none
      api_key := t.2.1
      model := t.2.2
      tavily_api_key := getattrD ns "TAVILY_API_KEY" .none
      max_search_results := getattrD ns "SEARCH_RESULTS_PER_QUERY" (.int 3)
      search_timeout := getattrD ns "SEARCH_TIMEOUT" (.int 240)
      max_content_length := getattrD ns "SEARCH_CONTENT_MAX_LENGTH" (.int 20000)
      max_reflections := getattrD ns "MAX_REFLECTIONS" (.int 2)
      max_paragraphs := getattrD ns "MAX_PARAGRAPHS" (.int 5)
      output_dir := getattrD ns "OUTPUT_DIR" (.str "reports")
      save_intermediate_states := getattrD ns "SAVE_INTERMEDIATE_STATES" (.bool true) }

/-- Whitespace as recognized by Python `str.strip()`. -/
def isPySpace (c : Char) : Bool :=
  c = ' ' || c = '\t' || c = '\n' || c = '\r' || c = '\x0b' || c = '\x0c'

/-- Python `str.strip()` on a character list: drop whitespace from both
ends. -/
def pyStripL (cs : List Char) : List Char :=
  ((cs.dropWhile isPySpace).reverse.dropWhile isPySpace).reverse

/-- Python `str.strip()`. -/
def pyStrip (s : String) : String :=
  String.mk (pyStripL s.toList)

/-- Accumulate a decimal digit list into a natural number. -/
def digitsToNat : List Char → Nat → Nat
  | [], acc => acc
  | c :: cs, acc => digitsToNat cs (acc * 10 + (c.toNat - 48))

/-- A non-empty all-digit character list as a natural number. -/
def parseNatDigits (cs : List Char) : Option Nat :=
  if cs ≠ [] ∧ cs.all Char.isDigit then some (digitsToNat cs 0) else Option.none

/-- Python `int(s)` on a string: strip whitespace, optional sign, then
decimal digits; anything else raises `ValueError` (`Option.none` here).
(Digit-group underscores accepted by CPython are not modelled; no
configuration value in play uses them.) -/
def parsePyInt (s : String) : Option Int :=
  match pyStripL s.toList with
  | '-' :: cs => (parseNatDigits cs).map fun n => -(n : Int)
  | '+' :: cs => (parseNatDigits cs).map fun n => (n : Int)
  | cs => (parseNatDigits cs).map fun n => (n : Int)

/-- Python `line.split('=', 1)` on a line known to contain `=`: the text
before the first `=` and the text after it; `Option.none` when the line
has no `=` (the `'=' in line` test). -/
def splitFirstEq : List Char → Option (List Char × List Char)
  | [] => Option.none
  | c :: rest =>
    if c = '=' then some ([], rest)
    else (splitFirstEq rest).map fun p => (c :: p.1, p.2)

/-- The line loop of the `.env` branch of `Config.from_file`: strip each
line, skip empty lines, `#`-lines and lines without `=`, split on the
first `=`, strip key and value, with later lines overwriting earlier
bindings of the same key. -/
def parseEnvLines (lines : List String) : String → Option String :=
  List.foldl
    (fun d line =>
      match pyStripL line.toList with
      | [] => d
      | c :: l =>
        if c = '#' then d
        else
          match splitFirstEq (c :: l) with
          | Option.none => d
          | some kv =>
            fun q =>
              if q = String.mk (pyStripL kv.1) then some (String.mk (pyStripL kv.2))
              else d q)
    (fun _ => Option.none) lines

/-- Errors of configuration resolution (`FileNotFoundError`,
`ValueError` from `int(...)`, the `ValueError` raised on failed
validation, and the `NameError` latent in `from_file`'s `.py` branch). -/
inductive ConfigError where
  | configNotFound : String → ConfigError
  | parseError : String → ConfigError
  | invalidConfig : ConfigError
  | nameError : ConfigError
deriving DecidableEq

/-- ASCII lower-casing of one character (the configuration values fed
to `str.lower()` are ASCII). -/
def asciiLowerChar (c : Char) : Char :=
  if 'A' ≤ c ∧ c ≤ 'Z' then Char.ofNat (c.toNat + 32) else c

/-- Python `str.lower()`. -/
def pyLower (s : String) : String :=
  String.mk (s.toList.map asciiLowerChar)

/-- Python `int(text)` as used by the `.env` branch: the raised `ValueError`
carries the offending literal. -/
def pyInt (text : String) : Except ConfigError Int :=
  match parsePyInt text with
  | some n => Except.ok n
  | Option.none => Except.error (ConfigError.parseError text)

/-- The `.env` branch of `Config.from_file`, applied to the lines of the
file (an absent file contributes no lines).  The five `int(...)` calls
are evaluated in the argument order of the constructor call; the first
non-numeric present value raises. -/
def Config.from_env (lines : List String) : Except ConfigError Config :=
  match pyInt ((parseEnvLines lines "SEARCH_RESULTS_PER_QUERY").getD "3") with
  | Except.error e => Except.error e
  | Except.ok msr =>
  match pyInt ((parseEnvLines lines "SEARCH_TIMEOUT").getD "240") with
  | Except.error e => Except.error e
  | Except.ok st =>
  match pyInt ((parseEnvLines lines "SEARCH_CONTENT_MAX_LENGTH").getD "20000") with
  | Except.error e => Except.error e
  | Except.ok mcl =>
  match pyInt ((parseEnvLines lines "MAX_REFLECTIONS").getD "2") with
  | Except.error e => Except.error e
  | Except.ok mr =>
  match pyInt ((parseEnvLines lines "MAX_PARAGRAPHS").getD "5") with
  | Except.error e => Except.error e
  | Except.ok mp =>
  Except.ok
    { base_url := ((parseEnvLines lines "BASE_URL").map PyValue.str).getD .none
      api_key := ((parseEnvLines lines "API_KEY").map PyValue.str).getD .none
      tavily_api_key := ((parseEnvLines lines "TAVILY_API_KEY").map PyValue.str).getD .none
      model := .str ((parseEnvLines lines "MODEL_NAME").getD "deepseek-chat")
      max_search_results := .int msr
      search_timeout := .int st
      max_content_length := .int mcl
      max_reflections := .int mr
      max_paragraphs := .int mp
      output_dir := .str ((parseEnvLines lines "OUTPUT_DIR").getD "reports")
      save_intermediate_states :=
        .bool (pyLower ((parseEnvLines lines "SAVE_INTERMEDIATE_STATES").getD "true")
                 = "true") }

/-- The filesystem the resolver probes: which paths exist, the module
namespace obtained by dynamically importing a `.py` path, and the lines
of a flat file. -/
structure FileSystem where
  fsExists : String → Bool
  pyModule : String → (String → Option PyValue)
  envLines : String → List String

/-- Python `config_file.endswith('.py')`. -/
def endsWithPy (s : String) : Bool :=
  match s.toList.reverse with
  | 'y' :: 'p' :: '.' :: _ => true
  | _ => false

/-- The `Config.from_file` dispatcher: dispatch on the `.py` extension; otherwise read
the file line by line when it exists (an absent file yields an empty
dict and hence all defaults). -/
def Config.from_file (fs : FileSystem) (config_file : String) (method : String) :
    Except ConfigError Config :=
  if endsWithPy config_file then
    match Config.from_py (fs.pyModule config_file) method with
    | some c => Except.ok c
    | Option.none => Except.error ConfigError.nameError
  else
    Config.from_env (if fs.fsExists config_file then fs.envLines config_file else [])

/-- The source-selection step of `load_config`: an explicit path must
exist, otherwise the fixed candidate list is probed in order. -/
def selectFile (fs : FileSystem) (config_file : Option String) : Except ConfigError String :=
  match config_file with
  | some f =>
      if fs.fsExists f then Except.ok f
      else Except.error (ConfigError.configNotFound ("配置文件不存在: " ++ f))
  | Option.none =>
      match ["myconfig.py", "config.env", ".env"].find? fs.fsExists with
      | some p => Except.ok p
      | Option.none =>
          Except.error (ConfigError.configNotFound "未找到配置文件，请创建 config.py 文件")

/-- The `load_config` resolver: select the source file, parse it, validate; a failed
validation raises `ValueError` (`invalidConfig`) and no `Config` is
returned. -/
def load_config (fs : FileSystem) (config_file : Option String) (method : String) :
    Except ConfigError Config :=
  match selectFile fs config_file with
  | Except.error e => Except.error e
  | Except.ok file =>
    match Config.from_file fs file method with
    | Except.error e => Except.error e
    | Except.ok config =>
      if config.validate then Except.ok config else Except.error ConfigError.invalidConfig

/-! ## The LLM client (`src/llms/llm.py`) -/

/-- The construction-precondition failures of `LLM.__init__` (the three
`ValueError`s, in the spec's taxonomy). -/
inductive LLMError where
  | missingCredential : LLMError
  | missingEndpoint : LLMError
  | missingModel : LLMError
deriving DecidableEq

/-- A constructed `LLM` client: the attributes stored by
`BaseLLM.__init__` plus `default_model` set at the end of
`LLM.__init__`.  (`src/llms/base.py` is absent from the repository; per
the spec `BaseLLM.__init__` only stores the three arguments.) -/
structure LLM where
  api_key : PyValue
  base_url : PyValue
  model_name : PyValue
  default_model : PyValue
deriving DecidableEq

/-- The `LLM.__init__` constructor: `api_key is None` and `base_url is None` raise; the
model name is then checked for truthiness (`if self.model_name:`), so
both `None` and `""` raise.  No network action occurs: the `OpenAI(...)`
constructor only stores the credential and endpoint. -/
def LLM.init (api_key base_url model_name : PyValue) : Except LLMError LLM :=
  if api_key = PyValue.none then Except.error LLMError.missingCredential
  else if base_url = PyValue.none then Except.error LLMError.missingEndpoint
  else if model_name.truthy then
    Except.ok { api_key := api_key, base_url := base_url,
                model_name := model_name, default_model := model_name }
  else Except.error LLMError.missingModel

/-- Constructing an `LLM` from a resolved `Config`, passing the settings
the way callers of this repository do (`config.api_key`,
`config.base_url`, `config.model`). -/
def LLM.fromConfig (c : Config) : Except LLMError LLM :=
  LLM.init c.api_key c.base_url c.model

/-- A completion message; `content` may be `None`. -/
structure Message where
  content : PyValue
deriving DecidableEq

/-- One completion candidate; the `message` attribute may be absent
(falsy). -/
structure Choice where
  message : Option Message
deriving DecidableEq

/-- A provider response: zero or more choices. -/
structure Response where
  choices : List Choice
deriving DecidableEq

/-- The outcome of one call to the completion provider: a response, or a
raised transport/provider exception (carried as its message). -/
inductive ProviderResult where
  | ok : Response → ProviderResult
  | error : String → ProviderResult
deriving DecidableEq

/-- Modelled from the spec: `BaseLLM.validate_response` — the file
`src/llms/base.py` is not in the repository.  Per the spec's base
contract it passes non-empty text through unchanged and coerces null to
the empty string, and never throws on well-formed string input. -/
def validate_response : PyValue → PyValue
  | .none => .str ""
  | v => v

/-- The recognized tuning overrides of `invoke`'s `**kwargs`
(`kwargs.get("temperature", 0.7)`, `kwargs.get("max_tokens", 4000)`);
unrecognized keys are ignored by the source and not modelled. -/
structure Kwargs where
  temperature : Option ℚ := Option.none
  max_tokens : Option Int := Option.none

/-- The `params` dict `invoke` sends: model, the system/user message
pair, temperature, max_tokens, `stream: False`. -/
structure Request where
  model : PyValue
  messages : List (String × String)
  temperature : ℚ
  max_tokens : Int
  stream : Bool
deriving DecidableEq

/-- The request `invoke` composes before calling the provider. -/
def LLM.buildParams (l : LLM) (system_prompt user_prompt : String) (kw : Kwargs) : Request :=
  { model := l.default_model
    messages := [("system", system_prompt), ("user", user_prompt)]
    temperature := kw.temperature.getD (7 / 10)
    max_tokens := kw.max_tokens.getD 4000
    stream := false }

/-- The `LLM.invoke` method: build the params, call the provider once, extract the
first choice's message content through `validate_response`, with `""`
when there are no choices or no message; a provider exception is logged
with the endpoint identity and re-raised unchanged.  The second
component records every provider call made (the requests sent), the
third the printed log lines. -/
def LLM.invoke (l : LLM) (provider : Request → ProviderResult)
    (system_prompt user_prompt : String) (kw : Kwargs) :
    Except String PyValue × List Request × List String :=
  let params := l.buildParams system_prompt user_prompt kw
  match provider params with
  | ProviderResult.error e =>
      (Except.error e, [params], [l.base_url.pyStr ++ " API调用错误: " ++ e])
  | ProviderResult.ok response =>
      match response.choices with
      | [] => (Except.ok (.str ""), [params], [])
      | c :: _ =>
        match c.message with
        | Option.none => (Except.ok (.str ""), [params], [])
        | some msg => (Except.ok (validate_response msg.content), [params], [])

/-- The dict returned by `get_model_info`. -/
structure ModelInfo where
  model : PyValue
  base_url : PyValue
deriving DecidableEq

/-- The `LLM.get_model_info` method: a pure read of the stored attributes. -/
def LLM.get_model_info (l : LLM) : ModelInfo :=
  { model := l.default_model, base_url := l.base_url }

/-! ## Shared helper lemmas -/

/-- Characterization of a successful `.env` parse: all five `int(...)`
calls succeed and the resulting record is determined field by field. -/
theorem from_env_ok_iff (lines : List String) (c : Config) :
    Config.from_env lines = Except.ok c ↔
      ∃ n1 n2 n3 n4 n5,
        pyInt ((parseEnvLines lines "SEARCH_RESULTS_PER_QUERY").getD "3") = Except.ok n1 ∧
        pyInt ((parseEnvLines lines "SEARCH_TIMEOUT").getD "240") = Except.ok n2 ∧
        pyInt ((parseEnvLines lines "SEARCH_CONTENT_MAX_LENGTH").getD "20000") = Except.ok n3 ∧
        pyInt ((parseEnvLines lines "MAX_REFLECTIONS").getD "2") = Except.ok n4 ∧
        pyInt ((parseEnvLines lines "MAX_PARAGRAPHS").getD "5") = Except.ok n5 ∧
        c = { base_url := ((parseEnvLines lines "BASE_URL").map PyValue.str).getD .none
              api_key := ((parseEnvLines lines "API_KEY").map PyValue.str).getD .none
              tavily_api_key :=
                ((parseEnvLines lines "TAVILY_API_KEY").map PyValue.str).getD .none
              model := .str ((parseEnvLines lines "MODEL_NAME").getD "deepseek-chat")
              max_search_results := .int n1
              search_timeout := .int n2
              max_content_length := .int n3
              max_reflections := .int n4
              max_paragraphs := .int n5
              output_dir := .str ((parseEnvLines lines "OUTPUT_DIR").getD "reports")
              save_intermediate_states :=
                .bool (pyLower ((parseEnvLines lines "SAVE_INTERMEDIATE_STATES").getD "true")
                         = "true") } := by
  constructor
  · intro h
    unfold Config.from_env at h
    split at h
    · cases h
    rename_i n1 h1
    split at h
    · cases h
    rename_i n2 h2
    split at h
    · cases h
    rename_i n3 h3
    split at h
    · cases h
    rename_i n4 h4
    split at h
    · cases h
    rename_i n5 h5
    cases h
    exact ⟨n1, n2, n3, n4, n5, h1, h2, h3, h4, h5, rfl⟩
  · rintro ⟨n1, n2, n3, n4, n5, h1, h2, h3, h4, h5, rfl⟩
    unfold Config.from_env
    rw [h1, h2, h3, h4, h5]

/-- A failed `int(...)` on any of the five numeric fields makes the
`.env` parse fail. -/
theorem from_env_not_ok (lines : List String) (k t : String)
    (hk : k = "SEARCH_RESULTS_PER_QUERY" ∨ k = "SEARCH_TIMEOUT" ∨
          k = "SEARCH_CONTENT_MAX_LENGTH" ∨ k = "MAX_REFLECTIONS" ∨ k = "MAX_PARAGRAPHS")
    (hp : parseEnvLines lines k = some t)
    (hn : parsePyInt t = Option.none) :
    (Config.from_env lines).isOk = false := by
  cases hfe : Config.from_env lines with
  | error e => rfl
  | ok c =>
    rw [from_env_ok_iff] at hfe
    obtain ⟨n1, n2, n3, n4, n5, h1, h2, h3, h4, h5, -⟩ := hfe
    rcases hk with rfl | rfl | rfl | rfl | rfl
    · rw [hp, Option.getD_some, pyInt, hn] at h1; cases h1
    · rw [hp, Option.getD_some, pyInt, hn] at h2; cases h2
    · rw [hp, Option.getD_some, pyInt, hn] at h3; cases h3
    · rw [hp, Option.getD_some, pyInt, hn] at h4; cases h4
    · rw [hp, Option.getD_some, pyInt, hn] at h5; cases h5

/-! ## C2 -/

/-- A structured-script namespace whose `SEARCH_TIMEOUT` constant is the
non-numeric string `"notanumber"`. -/
def nsNonNumericTimeout : String → Option PyValue :=
  fun n => if n = "SEARCH_TIMEOUT" then some (.str "notanumber") else Option.none

/-- C2 counterexample: in the structured script format a present
non-numeric `SEARCH_TIMEOUT` does not fail resolution with a parse
error — the `.py` branch performs no integer parsing and stores the
string unparsed in the numeric field. -/
theorem c2_counter :
    ∃ c, Config.from_py nsNonNumericTimeout "basic" = some c ∧
      c.search_timeout = PyValue.str "notanumber" :=
  ⟨_, rfl, rfl⟩

/-- C2 (amended): only the flat key=value format parses numeric fields
and fails loudly on present non-numeric text; the structured script
format never fails on the numeric constants and stores whatever value
the module defines, unparsed. -/
theorem c2_amended (lines : List String) (k t : String)
    (ns : String → Option PyValue) (v : PyValue)
    (hk : k = "SEARCH_RESULTS_PER_QUERY" ∨ k = "SEARCH_TIMEOUT" ∨
          k = "SEARCH_CONTENT_MAX_LENGTH" ∨ k = "MAX_REFLECTIONS" ∨ k = "MAX_PARAGRAPHS")
    (hp : parseEnvLines lines k = some t)
    (hn : parsePyInt t = Option.none)
    (hv : ns "SEARCH_TIMEOUT" = some v) :
    (Config.from_env lines).isOk = false ∧
    (Config.from_py ns "basic").isSome = true ∧
    (∃ c, Config.from_py ns "basic" = some c ∧ c.search_timeout = v) := by
  refine ⟨from_env_not_ok lines k t hk hp hn, rfl, ?_⟩
  refine ⟨_, rfl, ?_⟩
  show getattrD ns "SEARCH_TIMEOUT" (.int 240) = v
  rw [getattrD, hv, Option.getD_some]

/-- C2 witness. -/
theorem c2_amended_witness :
    (Config.from_env ["SEARCH_TIMEOUT=notanumber"]).isOk = false ∧
    (Config.from_py nsNonNumericTimeout "basic").isSome = true ∧
    (∃ c, Config.from_py nsNonNumericTimeout "basic" = some c ∧
      c.search_timeout = PyValue.str "notanumber") :=
  c2_amended ["SEARCH_TIMEOUT=notanumber"] "SEARCH_TIMEOUT" "notanumber"
    nsNonNumericTimeout (PyValue.str "notanumber")
    (Or.inr (Or.inl rfl)) rfl rfl rfl

/-! ## C3 -/

/-- C3: in the flat format each integer field takes its default only
when its key is wholly absent; a present value is parsed and used, and
a present non-numeric value makes resolution fail with the parse error
carrying the offending literal (never a silent default fallback). -/
theorem c3_flat_int_defaults (lines : List String) :
    (∀ c, Config.from_env lines = Except.ok c →
      (parseEnvLines lines "SEARCH_RESULTS_PER_QUERY" = Option.none →
        c.max_search_results = PyValue.int 3) ∧
      (parseEnvLines lines "SEARCH_TIMEOUT" = Option.none →
        c.search_timeout = PyValue.int 240) ∧
      (parseEnvLines lines "SEARCH_CONTENT_MAX_LENGTH" = Option.none →
        c.max_content_length = PyValue.int 20000) ∧
      (parseEnvLines lines "MAX_REFLECTIONS" = Option.none →
        c.max_reflections = PyValue.int 2) ∧
      (parseEnvLines lines "MAX_PARAGRAPHS" = Option.none →
        c.max_paragraphs = PyValue.int 5) ∧
      (∀ t n, parseEnvLines lines "SEARCH_TIMEOUT" = some t → parsePyInt t = some n →
        c.search_timeout = PyValue.int n)) ∧
    (∀ t, parseEnvLines lines "SEARCH_TIMEOUT" = some t → parsePyInt t = Option.none →
      (Config.from_env lines).isOk = false) ∧
    Config.from_env ["SEARCH_TIMEOUT=notanumber"] =
      Except.error (ConfigError.parseError "notanumber") := by
  refine ⟨?_, ?_, by rfl⟩
  · intro c hc
    rw [from_env_ok_iff] at hc
    obtain ⟨n1, n2, n3, n4, n5, h1, h2, h3, h4, h5, rfl⟩ := hc
    refine ⟨?_, ?_, ?_, ?_, ?_, ?_⟩
    · intro ha
      rw [ha] at h1
      simp only [Option.getD_none] at h1
      have : parsePyInt "3" = some 3 := by rfl
      rw [pyInt, this] at h1
      cases h1
      rfl
    · intro ha
      rw [ha] at h2
      simp only [Option.getD_none] at h2
      have : parsePyInt "240" = some 240 := by rfl
      rw [pyInt, this] at h2
      cases h2
      rfl
    · intro ha
      rw [ha] at h3
      simp only [Option.getD_none] at h3
      have : parsePyInt "20000" = some 20000 := by rfl
      rw [pyInt, this] at h3
      cases h3
      rfl
    · intro ha
      rw [ha] at h4
      simp only [Option.getD_none] at h4
      have : parsePyInt "2" = some 2 := by rfl
      rw [pyInt, this] at h4
      cases h4
      rfl
    · intro ha
      rw [ha] at h5
      simp only [Option.getD_none] at h5
      have : parsePyInt "5" = some 5 := by rfl
      rw [pyInt, this] at h5
      cases h5
      rfl
    · intro t n ht hpt
      rw [ht, Option.getD_some, pyInt, hpt] at h2
      cases h2
      rfl
  · intro t ht hn
    exact from_env_not_ok lines "SEARCH_TIMEOUT" t (Or.inr (Or.inl rfl)) ht hn

/-- C3 witness: the empty flat file parses with every integer default,
and `SEARCH_TIMEOUT=notanumber` fails. -/
theorem c3_flat_int_defaults_witness :
    ∃ c, Config.from_env [] = Except.ok c ∧
      c.max_search_results = PyValue.int 3 ∧
      c.search_timeout = PyValue.int 240 ∧
      c.max_content_length = PyValue.int 20000 ∧
      c.max_reflections = PyValue.int 2 ∧
      c.max_paragraphs = PyValue.int 5 ∧
      (Config.from_env ["SEARCH_TIMEOUT=notanumber"]).isOk = false := by
  refine ⟨_, rfl, ?_⟩
  obtain ⟨hdef, hfail, -⟩ := c3_flat_int_defaults []
  have h := hdef _ rfl
  obtain ⟨d1, d2, d3, d4, d5, -⟩ := h
  refine ⟨d1 rfl, d2 rfl, d3 rfl, d4 rfl, d5 rfl, ?_⟩
  obtain ⟨-, hfail2, -⟩ := c3_flat_int_defaults ["SEARCH_TIMEOUT=notanumber"]
  exact hfail2 "notanumber" rfl rfl

/-- The validator succeeds exactly when both credentials are truthy. -/
theorem validate_eq_true_iff (c : Config) :
    c.validate = true ↔ (c.api_key.truthy = true ∧ c.tavily_api_key.truthy = true) := by
  unfold Config.validate Config.validateChecks
  by_cases h1 : c.api_key.truthy <;> by_cases h2 : c.tavily_api_key.truthy <;> simp [h1, h2]

/-! ## C4 -/

/-- C4: resolution returns a `Config` only when `api_key` and
`tavily_api_key` are both non-`None` and non-empty (truthy); otherwise
it fails with `invalidConfig` after the validator reports which
credential is missing, and no partial `Config` reaches the caller. -/
theorem c4_resolution_requires_credentials (fs : FileSystem) (cf : Option String) (m : String) :
    (∀ c, load_config fs cf m = Except.ok c →
      c.api_key.truthy = true ∧ c.tavily_api_key.truthy = true) ∧
    (∀ file c, selectFile fs cf = Except.ok file →
      Config.from_file fs file m = Except.ok c →
      (c.api_key.truthy = false ∨ c.tavily_api_key.truthy = false) →
      load_config fs cf m = Except.error ConfigError.invalidConfig ∧
      (c.validateChecks).2 =
        (if c.api_key.truthy then ["错误: Tavily API Key未设置"]
         else ["错误: API Key未设置"])) := by
  constructor
  · intro c hc
    unfold load_config at hc
    split at hc
    · cases hc
    rename_i file hsel
    split at hc
    · cases hc
    rename_i c2 hff
    split at hc
    · rename_i hval
      cases hc
      exact (validate_eq_true_iff c).mp hval
    · cases hc
  · intro file c hsel hff hbad
    have hval : c.validate = false := by
      cases hv : c.validate with
      | false => rfl
      | true =>
        obtain ⟨h1, h2⟩ := (validate_eq_true_iff c).mp hv
        rcases hbad with h | h
        · rw [h1] at h; cases h
        · rw [h2] at h; cases h
    refine ⟨?_, ?_⟩
    · unfold load_config
      rw [hsel]
      simp only []
      rw [hff]
      simp [hval]
    · unfold Config.validateChecks
      rcases hbad with h | h
      · simp [h]
      · by_cases h1 : c.api_key.truthy <;> simp [h1, h]

/-- A filesystem holding only an empty `.env` file (no credentials). -/
def fsNoCreds : FileSystem :=
  { fsExists := fun p => p == ".env"
    pyModule := fun _ _ => Option.none
    envLines := fun _ => [] }

/-- What the empty `.env` parses to: all flat-format defaults. -/
def cfgFlatDefaults : Config :=
  { model := .str "deepseek-chat" }

/-- C4 witness: resolving the credential-less `.env` fails with
`invalidConfig`, and the validator names the missing API key. -/
theorem c4_witness :
    load_config fsNoCreds Option.none "basic" = Except.error ConfigError.invalidConfig ∧
    Config.from_file fsNoCreds ".env" "basic" = Except.ok cfgFlatDefaults ∧
    (Config.validateChecks cfgFlatDefaults).2 = ["错误: API Key未设置"] := by
  obtain ⟨-, h2⟩ := c4_resolution_requires_credentials fsNoCreds Option.none "basic"
  obtain ⟨herr, hmsg⟩ := h2 ".env" cfgFlatDefaults rfl rfl (Or.inl rfl)
  exact ⟨herr, rfl, by rw [hmsg]; rfl⟩

/-! ## C5 -/

/-- C5: an explicit path that does not exist fails with
`configNotFound`; with no explicit path the resolver probes
`myconfig.py`, `config.env`, `.env` in that order, selects the first
that exists, and fails with `configNotFound` when none exist. -/
theorem c5_source_selection (fs : FileSystem) (m : String) (f : String) :
    (fs.fsExists f = false →
      load_config fs (some f) m =
        Except.error (ConfigError.configNotFound ("配置文件不存在: " ++ f))) ∧
    (fs.fsExists "myconfig.py" = true →
      selectFile fs Option.none = Except.ok "myconfig.py") ∧
    (fs.fsExists "myconfig.py" = false → fs.fsExists "config.env" = true →
      selectFile fs Option.none = Except.ok "config.env") ∧
    (fs.fsExists "myconfig.py" = false → fs.fsExists "config.env" = false →
      fs.fsExists ".env" = true → selectFile fs Option.none = Except.ok ".env") ∧
    (fs.fsExists "myconfig.py" = false → fs.fsExists "config.env" = false →
      fs.fsExists ".env" = false →
      load_config fs Option.none m =
        Except.error (ConfigError.configNotFound "未找到配置文件，请创建 config.py 文件")) := by
  refine ⟨?_, ?_, ?_, ?_, ?_⟩
  · intro h
    unfold load_config selectFile
    simp [h]
  · intro h1
    unfold selectFile
    simp [List.find?, h1]
  · intro h1 h2
    unfold selectFile
    simp [List.find?, h1, h2]
  · intro h1 h2 h3
    unfold selectFile
    simp [List.find?, h1, h2, h3]
  · intro h1 h2 h3
    unfold load_config selectFile
    simp [List.find?, h1, h2, h3]

/-- An empty filesystem. -/
def fsEmpty : FileSystem :=
  { fsExists := fun _ => false
    pyModule := fun _ _ => Option.none
    envLines := fun _ => [] }

/-- A filesystem holding only `config.env`. -/
def fsOnlyConfigEnv : FileSystem :=
  { fsExists := fun p => p == "config.env"
    pyModule := fun _ _ => Option.none
    envLines := fun _ => [] }

/-- C5 witness: a missing explicit path fails, `config.env` is selected
when `myconfig.py` is absent, and an empty filesystem fails. -/
theorem c5_witness :
    load_config fsEmpty (some "nope.env") "basic" =
      Except.error (ConfigError.configNotFound "配置文件不存在: nope.env") ∧
    selectFile fsOnlyConfigEnv Option.none = Except.ok "config.env" ∧
    load_config fsEmpty Option.none "basic" =
      Except.error (ConfigError.configNotFound "未找到配置文件，请创建 config.py 文件") := by
  obtain ⟨ha, -, -, -, he⟩ := c5_source_selection fsEmpty "basic" "nope.env"
  obtain ⟨-, -, hc, -, -⟩ := c5_source_selection fsOnlyConfigEnv "basic" "nope.env"
  exact ⟨ha rfl, hc rfl rfl, he rfl rfl rfl⟩

/-! ## C6 -/

/-- C6: a provider error raised during `invoke` is propagated unchanged
to the caller after being logged with the endpoint identity, and the
provider is called exactly once — no retry, no backoff, no
partial-result recovery. -/
theorem c6_provider_error_propagated (l : LLM) (provider : Request → ProviderResult)
    (sp up : String) (kw : Kwargs) (e : String)
    (h : provider (l.buildParams sp up kw) = ProviderResult.error e) :
    l.invoke provider sp up kw =
      (Except.error e, [l.buildParams sp up kw],
       [l.base_url.pyStr ++ " API调用错误: " ++ e]) ∧
    (l.invoke provider sp up kw).2.1.length = 1 := by
  constructor
  · simp only [LLM.invoke]
    rw [h]
  · simp only [LLM.invoke]
    rw [h]
    rfl

/-- The stub client used to exercise `invoke`. -/
def llmStub : LLM :=
  { api_key := .str "k", base_url := .str "https://x",
    model_name := .str "m", default_model := .str "m" }

/-- A stub provider that raises a transport error. -/
def providerBoom : Request → ProviderResult :=
  fun _ => ProviderResult.error "boom"

/-- C6 witness. -/
theorem c6_witness :
    llmStub.invoke providerBoom "s" "u" {} =
      (Except.error "boom", [llmStub.buildParams "s" "u" {}],
       ["https://x API调用错误: boom"]) ∧
    (llmStub.invoke providerBoom "s" "u" {}).2.1.length = 1 := by
  obtain ⟨h1, h2⟩ := c6_provider_error_propagated llmStub providerBoom "s" "u" {} "boom" rfl
  exact ⟨by rw [h1]; rfl, h2⟩

/-! ## C7 -/

/-- C7: a response with zero choices or an absent message yields `""`
without raising; a response whose first choice carries a message yields
that message content passed through `validate_response`, which passes
non-empty text through unchanged. -/
theorem c7_result_extraction (l : LLM) (provider : Request → ProviderResult)
    (sp up : String) (kw : Kwargs) (resp : Response) (msg : Message) (s : String)
    (h : provider (l.buildParams sp up kw) = ProviderResult.ok resp) :
    (resp.choices = [] → (l.invoke provider sp up kw).1 = Except.ok (PyValue.str "")) ∧
    (∀ rest, resp.choices = { message := Option.none } :: rest →
      (l.invoke provider sp up kw).1 = Except.ok (PyValue.str "")) ∧
    (∀ rest, resp.choices = { message := some msg } :: rest →
      (l.invoke provider sp up kw).1 = Except.ok (validate_response msg.content)) ∧
    (s ≠ "" → validate_response (PyValue.str s) = PyValue.str s) := by
  refine ⟨?_, ?_, ?_, fun _ => rfl⟩
  · intro hc
    simp [LLM.invoke, h, hc]
  · intro rest hc
    simp [LLM.invoke, h, hc]
  · intro rest hc
    simp [LLM.invoke, h, hc]

/-- A stub provider returning zero choices. -/
def providerEmpty : Request → ProviderResult :=
  fun _ => ProviderResult.ok { choices := [] }

/-- A stub provider returning one candidate with content `"hello"`. -/
def providerHello : Request → ProviderResult :=
  fun _ => ProviderResult.ok { choices := [{ message := some { content := .str "hello" } }] }

/-- C7 witness. -/
theorem c7_witness :
    (llmStub.invoke providerEmpty "s" "u" {}).1 = Except.ok (PyValue.str "") ∧
    (llmStub.invoke providerHello "s" "u" {}).1 = Except.ok (PyValue.str "hello") ∧
    validate_response (PyValue.str "hello") = PyValue.str "hello" := by
  obtain ⟨hA, -, -, -⟩ :=
    c7_result_extraction llmStub providerEmpty "s" "u" {} { choices := [] }
      { content := PyValue.str "hello" } "hello" rfl
  obtain ⟨-, -, hC, hD⟩ :=
    c7_result_extraction llmStub providerHello "s" "u" {}
      { choices := [{ message := some { content := PyValue.str "hello" } }] }
      { content := PyValue.str "hello" } "hello" rfl
  exact ⟨hA rfl, (hC [] rfl).trans rfl, hD (by decide)⟩

/-! ## C8 -/

/-- The record the `.py` branch builds under the `basic` profile. -/
theorem from_py_basic (ns : String → Option PyValue) :
    Config.from_py ns "basic" = some
      { base_url := if (getattrD ns "DEEPSEEK_BASE_URL" .none).truthy
                    then getattrD ns "DEEPSEEK_BASE_URL" .none else .none
        api_key := getattrD ns "DEEPSEEK_API_KEY" .none
        model := getattrD ns "DEEPSEEK_MODEL" (.str "deepseek-chat")
        tavily_api_key := getattrD ns "TAVILY_API_KEY" .none
        max_search_results := getattrD ns "SEARCH_RESULTS_PER_QUERY" (.int 3)
        search_timeout := getattrD ns "SEARCH_TIMEOUT" (.int 240)
        max_content_length := getattrD ns "SEARCH_CONTENT_MAX_LENGTH" (.int 20000)
        max_reflections := getattrD ns "MAX_REFLECTIONS" (.int 2)
        max_paragraphs := getattrD ns "MAX_PARAGRAPHS" (.int 5)
        output_dir := getattrD ns "OUTPUT_DIR" (.str "reports")
        save_intermediate_states := getattrD ns "SAVE_INTERMEDIATE_STATES" (.bool true) } :=
  rfl

/-- The record the `.py` branch builds under the `advanced` profile. -/
theorem from_py_advanced (ns : String → Option PyValue) :
    Config.from_py ns "advanced" = some
      { base_url := if (getattrD ns "OPENAI_BASE_URL" .none).truthy
                    then getattrD ns "OPENAI_BASE_URL" .none else .none
        api_key := getattrD ns "OPENAI_API_KEY" .none
        model := getattrD ns "OPENAI_MODEL" (.str "gpt-4o-mini")
        tavily_api_key := getattrD ns "TAVILY_API_KEY" .none
        max_search_results := getattrD ns "SEARCH_RESULTS_PER_QUERY" (.int 3)
        search_timeout := getattrD ns "SEARCH_TIMEOUT" (.int 240)
        max_content_length := getattrD ns "SEARCH_CONTENT_MAX_LENGTH" (.int 20000)
        max_reflections := getattrD ns "MAX_REFLECTIONS" (.int 2)
        max_paragraphs := getattrD ns "MAX_PARAGRAPHS" (.int 5)
        output_dir := getattrD ns "OUTPUT_DIR" (.str "reports")
        save_intermediate_states := getattrD ns "SAVE_INTERMEDIATE_STATES" (.bool true) } :=
  rfl

/-- C8: under the `basic` profile a missing `DEEPSEEK_MODEL` yields
`"deepseek-chat"`; under `advanced` a missing `OPENAI_MODEL` yields
`"gpt-4o-mini"`; every other listed constant falls back to its stated
default when missing, and resolution of a structured script never fails
for these profiles. -/
theorem c8_py_profile_defaults (ns : String → Option PyValue) :
    (Config.from_py ns "basic").isSome = true ∧
    (Config.from_py ns "advanced").isSome = true ∧
    (∀ c, ns "DEEPSEEK_MODEL" = Option.none → Config.from_py ns "basic" = some c →
      c.model = PyValue.str "deepseek-chat") ∧
    (∀ c, ns "OPENAI_MODEL" = Option.none → Config.from_py ns "advanced" = some c →
      c.model = PyValue.str "gpt-4o-mini") ∧
    (∀ m c, (m = "basic" ∨ m = "advanced") → Config.from_py ns m = some c →
      (ns "TAVILY_API_KEY" = Option.none → c.tavily_api_key = PyValue.none) ∧
      (ns "SEARCH_RESULTS_PER_QUERY" = Option.none → c.max_search_results = PyValue.int 3) ∧
      (ns "SEARCH_TIMEOUT" = Option.none → c.search_timeout = PyValue.int 240) ∧
      (ns "SEARCH_CONTENT_MAX_LENGTH" = Option.none →
        c.max_content_length = PyValue.int 20000) ∧
      (ns "MAX_REFLECTIONS" = Option.none → c.max_reflections = PyValue.int 2) ∧
      (ns "MAX_PARAGRAPHS" = Option.none → c.max_paragraphs = PyValue.int 5) ∧
      (ns "OUTPUT_DIR" = Option.none → c.output_dir = PyValue.str "reports") ∧
      (ns "SAVE_INTERMEDIATE_STATES" = Option.none →
        c.save_intermediate_states = PyValue.bool true)) := by
  refine ⟨rfl, rfl, ?_, ?_, ?_⟩
  · intro c h hc
    rw [from_py_basic] at hc
    cases hc
    show getattrD ns "DEEPSEEK_MODEL" (.str "deepseek-chat") = _
    rw [getattrD, h]
    rfl
  · intro c h hc
    rw [from_py_advanced] at hc
    cases hc
    show getattrD ns "OPENAI_MODEL" (.str "gpt-4o-mini") = _
    rw [getattrD, h]
    rfl
  · intro m c hm hc
    rcases hm with rfl | rfl
    all_goals {
      first
        | rw [from_py_basic] at hc
        | rw [from_py_advanced] at hc
      cases hc
      refine ⟨?_, ?_, ?_, ?_, ?_, ?_, ?_, ?_⟩ <;>
        { intro h
          show getattrD ns _ _ = _
          rw [getattrD, h]
          rfl }
    }

/-- The wholly empty module namespace. -/
def nsEmpty : String → Option PyValue := fun _ => Option.none

/-- C8 witness: every default on the empty namespace. -/
theorem c8_witness :
    (∃ c, Config.from_py nsEmpty "basic" = some c ∧
      c.model = PyValue.str "deepseek-chat" ∧ c.search_timeout = PyValue.int 240 ∧
      c.max_search_results = PyValue.int 3 ∧ c.max_content_length = PyValue.int 20000 ∧
      c.max_reflections = PyValue.int 2 ∧ c.max_paragraphs = PyValue.int 5 ∧
      c.output_dir = PyValue.str "reports" ∧
      c.save_intermediate_states = PyValue.bool true) ∧
    (∃ c, Config.from_py nsEmpty "advanced" = some c ∧
      c.model = PyValue.str "gpt-4o-mini") := by
  obtain ⟨-, -, hBasic, hAdv, hCommon⟩ := c8_py_profile_defaults nsEmpty
  refine ⟨⟨_, rfl, ?_⟩, ⟨_, rfl, ?_⟩⟩
  · obtain ⟨-, d2, d3, d4, d5, d6, d7, d8⟩ := hCommon "basic" _ (Or.inl rfl) rfl
    exact ⟨hBasic _ rfl rfl, d3 rfl, d2 rfl, d4 rfl, d5 rfl, d6 rfl, d7 rfl, d8 rfl⟩
  · exact hAdv _ rfl rfl

/-! ## C9 -/

/-- The filesystem of the round-trip scenario: one `config.env` holding
the four keys of the claim. -/
def fsRoundTrip : FileSystem :=
  { fsExists := fun p => p == "config.env"
    pyModule := fun _ _ => Option.none
    envLines := fun p =>
      if p == "config.env" then
        ["BASE_URL=https://x", "API_KEY=k", "TAVILY_API_KEY=t", "MODEL_NAME=m"]
      else [] }

/-- C9: resolving the flat source, building a client from the resulting
`Config` and asking for `get_model_info` returns exactly
`{model: "m", base_url: "https://x"}`.  `get_model_info` is a pure
function of the client in this embedding, so it has no side effects. -/
theorem c9_round_trip :
    ∃ c llmC, load_config fsRoundTrip (some "config.env") "basic" = Except.ok c ∧
      LLM.fromConfig c = Except.ok llmC ∧
      llmC.get_model_info =
        { model := PyValue.str "m", base_url := PyValue.str "https://x" } :=
  ⟨_, _, rfl, rfl, rfl⟩

/-! ## C10 -/

/-- C10: in the flat format a wholly absent `MODEL_NAME` yields the
model `"deepseek-chat"` (not the empty-string sentinel), whatever
profile argument resolution receives. -/
theorem c10_flat_model_default (fs : FileSystem) (file m : String) (c : Config)
    (hext : endsWithPy file = false)
    (habs : parseEnvLines (if fs.fsExists file then fs.envLines file else []) "MODEL_NAME"
              = Option.none)
    (hok : Config.from_file fs file m = Except.ok c) :
    c.model = PyValue.str "deepseek-chat" ∧ c.model ≠ PyValue.str "" := by
  unfold Config.from_file at hok
  rw [hext] at hok
  simp only [Bool.false_eq_true, if_false] at hok
  rw [from_env_ok_iff] at hok
  obtain ⟨n1, n2, n3, n4, n5, -, -, -, -, -, rfl⟩ := hok
  refine ⟨?_, ?_⟩
  · show PyValue.str ((parseEnvLines _ "MODEL_NAME").getD "deepseek-chat") = _
    rw [habs]
    rfl
  · show PyValue.str ((parseEnvLines _ "MODEL_NAME").getD "deepseek-chat") ≠ _
    rw [habs]
    decide

/-- C10 witness: an empty flat file under the `advanced` profile still
gets model `"deepseek-chat"`. -/
theorem c10_witness :
    Config.from_file fsEmpty "config.env" "advanced" = Except.ok cfgFlatDefaults ∧
    cfgFlatDefaults.model = PyValue.str "deepseek-chat" ∧
    cfgFlatDefaults.model ≠ PyValue.str "" :=
  ⟨rfl, (c10_flat_model_default fsEmpty "config.env" "advanced" cfgFlatDefaults
           rfl rfl rfl).1,
        (c10_flat_model_default fsEmpty "config.env" "advanced" cfgFlatDefaults
           rfl rfl rfl).2⟩

/-! ## C1 -/

/-- A `Config` with valid credentials whose `base_url` is the empty
string (representable: the flat format stores `BASE_URL=` as `""`, and
the dataclass accepts it directly). -/
def cfgEmptyBaseUrl : Config :=
  { base_url := .str "", api_key := .str "k", tavily_api_key := .str "t", model := .str "m" }

/-- C1 counterexample: a `Config` with valid credentials but an
empty-string `base_url` does NOT fail client construction — the source
only checks `base_url is None`, so construction succeeds. -/
theorem c1_counter :
    cfgEmptyBaseUrl.validate = true ∧
    LLM.fromConfig cfgEmptyBaseUrl =
      Except.ok { api_key := .str "k", base_url := .str "", model_name := .str "m",
                  default_model := .str "m" } :=
  ⟨rfl, rfl⟩

/-- C1 (amended): client construction fails before any network action
with `missingCredential` when `api_key` is `None`, `missingEndpoint`
when `base_url` is `None`, `missingModel` when `model_name` is `None`
or empty; a valid-credential `Config` with empty-string `model` fails
construction, but one with empty-string (non-`None`) `base_url` and a
truthy model constructs successfully. -/
theorem c1_amended (ak bu mn : PyValue) (c : Config) :
    (LLM.init PyValue.none bu mn = Except.error LLMError.missingCredential) ∧
    (ak ≠ PyValue.none → LLM.init ak PyValue.none mn = Except.error LLMError.missingEndpoint) ∧
    (ak ≠ PyValue.none → bu ≠ PyValue.none →
      LLM.init ak bu PyValue.none = Except.error LLMError.missingModel) ∧
    (ak ≠ PyValue.none → bu ≠ PyValue.none →
      LLM.init ak bu (PyValue.str "") = Except.error LLMError.missingModel) ∧
    (c.validate = true → c.model = PyValue.str "" → (LLM.fromConfig c).isOk = false) ∧
    (c.validate = true → c.base_url = PyValue.str "" → c.model.truthy = true →
      (LLM.fromConfig c).isOk = true) := by
  refine ⟨rfl, ?_, ?_, ?_, ?_, ?_⟩
  · intro h; simp [LLM.init, h]
  · intro h1 h2; simp [LLM.init, h1, h2, PyValue.truthy]
  · intro h1 h2; simp [LLM.init, h1, h2, PyValue.truthy]
  · intro hv hm
    have hak : c.api_key ≠ PyValue.none := by
      intro h
      simp [Config.validate, Config.validateChecks, h, PyValue.truthy] at hv
    by_cases hbu : c.base_url = PyValue.none
    · simp [LLM.fromConfig, LLM.init, hak, hbu, Except.isOk, Except.toBool]
    · simp [LLM.fromConfig, LLM.init, hak, hbu, hm, PyValue.truthy, Except.isOk,
            Except.toBool]
  · intro hv hbu hm
    have hak : c.api_key ≠ PyValue.none := by
      intro h
      simp [Config.validate, Config.validateChecks, h, PyValue.truthy] at hv
    have hbu2 : c.base_url ≠ PyValue.none := by rw [hbu]; intro h; cases h
    simp [LLM.fromConfig, LLM.init, hak, hbu2, hm, Except.isOk, Except.toBool]

/-- C1 witness. -/
theorem c1_witness :
    LLM.init PyValue.none (PyValue.str "b") (PyValue.str "m")
      = Except.error LLMError.missingCredential ∧
    LLM.init (PyValue.str "k") PyValue.none (PyValue.str "m")
      = Except.error LLMError.missingEndpoint ∧
    LLM.init (PyValue.str "k") (PyValue.str "b") PyValue.none
      = Except.error LLMError.missingModel ∧
    LLM.init (PyValue.str "k") (PyValue.str "b") (PyValue.str "")
      = Except.error LLMError.missingModel ∧
    (LLM.fromConfig { base_url := .str "b", api_key := .str "k",
                      tavily_api_key := .str "t", model := .str "" }).isOk = false ∧
    (LLM.fromConfig { base_url := .str "", api_key := .str "k",
                      tavily_api_key := .str "t", model := .str "mm" }).isOk = true := by
  obtain ⟨h1, h2, h3, h4, h5, -⟩ :=
    c1_amended (PyValue.str "k") (PyValue.str "b") (PyValue.str "m")
      { base_url := .str "b", api_key := .str "k", tavily_api_key := .str "t",
        model := .str "" }
  obtain ⟨-, -, -, -, -, h6⟩ :=
    c1_amended (PyValue.str "k") (PyValue.str "b") (PyValue.str "m")
      { base_url := .str "", api_key := .str "k", tavily_api_key := .str "t",
        model := .str "mm" }
  exact ⟨h1, h2 (by decide), h3 (by decide) (by decide), h4 (by decide) (by decide),
         h5 rfl rfl, h6 rfl rfl rfl⟩

end DeepSearch
